import Mathlib

/-!
Verification of the request-dispatch and SSE-streaming core of a Horizon
client (src/client.rs). The embedding models `execute_request` and one loop
iteration of `HorizonHttpStream::poll_next` as pure functions over explicit
state, with the HTTP transport and the SSE decoder given as environments:
a response future is a countdown to a final transport result, and a decoder
is the list of poll outcomes it will produce, exhausted when empty.
-/

namespace StellarHorizon

/-- Modelled from the spec: the crate error taxonomy of section 7 (the file
src/error.rs is outside the provided sources); variant names follow their
uses in src/client.rs where visible (HorizonRequestError, HorizonServerError,
SSEDecoderError) and the spec otherwise. The 4xx payload is kept abstract,
as a plain string. -/
inductive Err where
  | InvalidHost
  | RequestBuildError
  | TransportError
  | HorizonServerError
  | HorizonRequestError (payload : String)
  | DeserializationError
  | SSEDecoderError
deriving DecidableEq

/-- Model of async_sse::Event: a message frame (optional id, event name, data
bytes) or a retry-interval hint. -/
inductive SSEEvent where
  | message (id : Option String) (name : String) (data : String)
  | retry (durationMs : Nat)

/-- One poll outcome of the SSE decoder produced by async_sse::decode: not
ready yet, or a framing result (a decoded event or a framing error). -/
inductive DecItem where
  | pending
  | frame (f : Except Unit SSEEvent)

/-- The decoder is the list of its future poll outcomes; it is exhausted
(Ready(None), connection closed cleanly) when the list is empty. -/
abbrev Decoder := List DecItem

/-- The HTTP response seen by the stream: its status code together with the
sequence of SSE items that decoding its body will produce. -/
structure HttpResponse where
  status : Nat
  body : Decoder

/-- Model of a hyper ResponseFuture: Pending for `fuel` more polls, then
Ready with either a transport error or a response. -/
structure RespFuture where
  fuel : Nat
  result : Except Unit HttpResponse

/-- An outgoing HTTP request as built by the client: method, target URL and
header list in insertion order. -/
structure HttpRequest where
  method : String
  uri : String
  headers : List (String × String)
deriving DecidableEq

/-- Immutable configuration of HorizonHttpClient: base host plus the
identification metadata attached to every request (the hyper handle itself
is modelled separately, as the environment). -/
structure ClientCfg where
  host : String
  client_name : String
  client_version : String

/-- HorizonHttpClient::request_builder: the default headers attached to every
outgoing request. -/
def requestBuilderHeaders (c : ClientCfg) : List (String × String) :=
  [("X-Client-Name", c.client_name), ("X-Client-Version", c.client_version)]

/-- The GET request built by HorizonHttpStream::poll_next on (re)connection
(src/client.rs lines 152-159): default headers, then Accept:
text/event-stream, then Last-Event-Id when the cursor is set. -/
def buildStreamRequest (c : ClientCfg) (uri : String) (last_id : Option String) :
    HttpRequest :=
  { method := "GET"
  , uri := uri
  , headers := requestBuilderHeaders c ++ [("Accept", "text/event-stream")] ++
      (match last_id with
       | some i => [("Last-Event-Id", i)]
       | none => []) }

/-- The mutable fields of HorizonHttpStream (src/client.rs lines 42-51):
cursor, pending response future, active decoder. The client reference and
the request value are immutable and passed to the step function directly. -/
structure StreamState where
  last_id : Option String
  response : Option RespFuture
  decoder : Option Decoder

/-- The transport environment: the future each successive raw_request call
returns, how many calls were made, and the trace of issued requests. -/
structure Env where
  conns : Nat → RespFuture
  idx : Nat
  reqs : List HttpRequest

/-- Outcome of one iteration of the poll_next loop: continue looping, suspend
(Poll::Pending), yield an item to the consumer, or panic (a failed assert). -/
inductive StepRes (Res : Type) where
  | cont
  | pend
  | item (r : Except Err Res)
  | panicked

abbrev StepOut (Res : Type) := StepRes Res × StreamState × Env

/-- hyper StatusCode::is_success: 2xx. -/
def isSuccess (s : Nat) : Bool := decide (200 ≤ s ∧ s < 300)

/-- hyper StatusCode::is_client_error: 4xx. -/
def isClientError (s : Nat) : Bool := decide (400 ≤ s ∧ s < 500)

/-- First block of the poll_next loop (src/client.rs lines 151-162): when
neither a response future nor a decoder is held, resolve the endpoint URL (a
failure there is yielded as an error item by the question-mark operator),
build the GET request with the cursor header and issue it, storing the
pending response. `Except.error` carries an early return out of the loop
iteration. -/
def connectStep {Res : Type} (client : ClientCfg) (uriRes : Except Err String)
    (st : StreamState) (env : Env) :
    Except (StepOut Res) (StreamState × Env) :=
  if st.response.isNone && st.decoder.isNone then
    match uriRes with
    | .error e => .error (.item (.error e), st, env)
    | .ok uri =>
        .ok ({ st with response := some (env.conns env.idx) },
             { env with idx := env.idx + 1,
                        reqs := env.reqs ++ [buildStreamRequest client uri st.last_id] })
  else .ok (st, env)

/-- Second block of the poll_next loop (src/client.rs lines 164-185): take the
pending response future and poll it. Pending restores it and suspends; a
transport error is yielded as an item (the future stays consumed, so the next
poll reconnects); a ready response is asserted successful — a non-2xx status
panics — and its body becomes the decoder. -/
def responseStep {Res : Type} (st : StreamState) (env : Env) :
    Except (StepOut Res) (StreamState × Env) :=
  match st.response with
  | none => .ok (st, env)
  | some fut =>
    match fut.fuel with
    | n + 1 => .error (.pend, { st with response := some ⟨n, fut.result⟩ }, env)
    | 0 =>
      match fut.result with
      | .error _ => .error (.item (.error .TransportError), { st with response := none }, env)
      | .ok resp =>
          if isSuccess resp.status then
            .ok ({ st with response := none, decoder := some resp.body }, env)
          else
            .error (.panicked, { st with response := none }, env)

/-- Third block of the poll_next loop (src/client.rs lines 187-217): take the
decoder and poll it. Pending restores it and suspends; exhaustion drops it
and loops (reconnect); a framing error yields SSEDecoderError with the
decoder dropped; a message frame first updates the cursor from its id, then
is deserialized and yielded only when its name is exactly "message"; a retry
hint is logged and skipped. -/
def decoderStep {Res : Type} (deserRes : String → Except Unit Res)
    (st : StreamState) (env : Env) : StepOut Res :=
  match st.decoder with
  | none => (.cont, st, env)
  | some dec =>
    match dec with
    | [] => (.cont, { st with decoder := none }, env)
    | DecItem.pending :: rest => (.pend, { st with decoder := some rest }, env)
    | DecItem.frame (.error _) :: _ =>
        (.item (.error .SSEDecoderError), { st with decoder := none }, env)
    | DecItem.frame (.ok ev) :: rest =>
      match ev with
      | .message id name data =>
        let st1 : StreamState :=
          { st with decoder := some rest
                  , last_id := match id with
                               | some i => some i
                               | none => st.last_id }
        if name = "message" then
          match deserRes data with
          | .ok r => (.item (.ok r), st1, env)
          | .error _ => (.item (.error .DeserializationError), st1, env)
        else (.cont, st1, env)
      | .retry _ => (.cont, { st with decoder := some rest }, env)

/-- One full iteration of the loop in HorizonHttpStream::poll_next
(src/client.rs lines 150-218): the three blocks run in order within a single
iteration; an early return from a block ends the iteration. -/
def pollStep {Res : Type} (client : ClientCfg) (uriRes : Except Err String)
    (deserRes : String → Except Unit Res) (st : StreamState) (env : Env) :
    StepOut Res :=
  match @connectStep Res client uriRes st env with
  | .error out => out
  | .ok (st1, env1) =>
    match @responseStep Res st1 env1 with
    | .error out => out
    | .ok (st2, env2) => decoderStep deserRes st2 env2

/-- Result of a whole poll_next call: Pending, a yielded item, a panic, or
model fuel exhaustion (the Rust loop has no bound; poll_next never returns
Ready(None)). -/
inductive PollOutcome (Res : Type) where
  | pending
  | item (r : Except Err Res)
  | panicked
  | fuelOut

/-- HorizonHttpStream::poll_next: iterate the loop body until it suspends,
yields or panics, up to `fuel` iterations. -/
def poll_next {Res : Type} (fuel : Nat) (client : ClientCfg)
    (uriRes : Except Err String) (deserRes : String → Except Unit Res)
    (st : StreamState) (env : Env) : PollOutcome Res × StreamState × Env :=
  match fuel with
  | 0 => (.fuelOut, st, env)
  | n + 1 =>
    match pollStep client uriRes deserRes st env with
    | (.cont, st1, env1) => poll_next n client uriRes deserRes st1 env1
    | (.pend, st1, env1) => (.pending, st1, env1)
    | (.item r, st1, env1) => (.item r, st1, env1)
    | (.panicked, st1, env1) => (.panicked, st1, env1)

/-- HorizonClient::stream for HorizonHttpClient (src/client.rs lines 102-113):
wrap the request in a fresh HorizonHttpStream with empty cursor, no pending
response and no decoder; unconditionally Ok, touching neither the transport
nor the endpoint URL. -/
def streamNew : Except Err StreamState :=
  .ok { last_id := none, response := none, decoder := none }

/-- A one-shot HTTP response with its body already read in full (the body
read of src/client.rs lines 131 and 135 happens before decoding). -/
structure OneShotResponse where
  status : Nat
  body : String

/-- execute_request (src/client.rs lines 116-141): resolve the URL, issue the
request (`transport` is the awaited outcome of raw_request), then classify
the status: 2xx decodes the body as the declared response type, 4xx decodes
it as the shared HorizonError schema and wraps it in HorizonRequestError,
anything else is HorizonServerError without touching the body. -/
def execute_request {Resp : Type} (uriRes : Except Err String)
    (transport : Except Err OneShotResponse)
    (deserResp : String → Except Unit Resp)
    (deserHorizonError : String → Except Unit String) : Except Err Resp :=
  match uriRes with
  | .error e => .error e
  | .ok _ =>
    match transport with
    | .error e => .error e
    | .ok resp =>
        if isSuccess resp.status then
          match deserResp resp.body with
          | .ok r => .ok r
          | .error _ => .error .DeserializationError
        else if isClientError resp.status then
          match deserHorizonError resp.body with
          | .ok payload => .error (.HorizonRequestError payload)
          | .error _ => .error .DeserializationError
        else .error .HorizonServerError

/-! Concrete fixtures used to evaluate the model on closed inputs. -/

/-- A concrete client configuration. -/
def testClient : ClientCfg :=
  { host := "https://horizon.example"
  , client_name := "aurora-rs/stellar-sdk"
  , client_version := "0.1.0" }

/-- A concrete resource deserializer: accepts exactly the body "1". -/
def deserNat : String → Except Unit Nat :=
  fun s => if s = "1" then .ok 1 else .error ()

/-- A concrete 4xx payload deserializer: the payload is the raw body. -/
def deserPayload : String → Except Unit String := fun s => .ok s

/-- An environment whose transport always answers at once with an empty 200
SSE body. -/
def env0 : Env := ⟨fun _ => ⟨0, .ok ⟨200, []⟩⟩, 0, []⟩

/-- An environment whose transport always answers at once with status 500. -/
def env500 : Env := ⟨fun _ => ⟨0, .ok ⟨500, []⟩⟩, 0, []⟩

/-- The freshly constructed stream state. -/
def streamInit : StreamState := ⟨none, none, none⟩

/-! Helper lemmas about the step functions. -/

/-- The decoder block never touches the transport environment. -/
lemma decoderStep_env_eq {Res : Type} (d : String → Except Unit Res)
    (st : StreamState) (env : Env) : (decoderStep d st env).2.2 = env := by
  rcases st with ⟨lid, resp, dec⟩
  rcases dec with _ | dec
  · rfl
  · rcases dec with _ | ⟨item, rest⟩
    · rfl
    · rcases item with _ | f
      · rfl
      · rcases f with e | ev
        · rfl
        · rcases ev with ⟨id, name, data⟩ | dur
          · by_cases h : name = "message"
            · subst h
              rcases hd : d data with e | r <;> simp [decoderStep, hd]
            · simp [decoderStep, h]
          · rfl

/-- The response block never touches the transport environment. -/
lemma responseStep_env_eq {Res : Type} (st : StreamState) (env : Env) :
    (match @responseStep Res st env with
     | .error out => out.2.2
     | .ok p => p.2) = env := by
  rcases st with ⟨lid, resp, dec⟩
  rcases resp with _ | ⟨fuel, result⟩
  · rfl
  · rcases fuel with _ | n
    · rcases result with e | resp
      · rfl
      · cases hS : isSuccess resp.status <;> simp [responseStep, hS]
    · rfl

/-- The response block never touches the transport environment (early-return
case). -/
lemma responseStep_error_env {Res : Type} {st : StreamState} {env : Env}
    {out : StepOut Res} (h : @responseStep Res st env = .error out) :
    out.2.2 = env := by
  have key := @responseStep_env_eq Res st env
  rw [h] at key
  exact key

/-- The response block never touches the transport environment (fall-through
case). -/
lemma responseStep_ok_env {Res : Type} {st : StreamState} {env : Env}
    {st2 : StreamState} {env2 : Env}
    (h : @responseStep Res st env = .ok (st2, env2)) : env2 = env := by
  have key := @responseStep_env_eq Res st env
  rw [h] at key
  exact key

/-- From the bare state (no pending response, no decoder), one loop iteration
issues exactly one request: the stream GET for the endpoint URL carrying the
current cursor. -/
lemma reconnect_issues_request {Res : Type} (client : ClientCfg) (u : String)
    (deserRes : String → Except Unit Res) (lid : Option String) (env : Env) :
    (pollStep client (.ok u) deserRes ⟨lid, none, none⟩ env).2.2.reqs =
      env.reqs ++ [buildStreamRequest client u lid] := by
  have key : pollStep client (.ok u) deserRes ⟨lid, none, none⟩ env =
      (match @responseStep Res ⟨lid, some (env.conns env.idx), none⟩
          { env with idx := env.idx + 1
                   , reqs := env.reqs ++ [buildStreamRequest client u lid] } with
       | .error out => out
       | .ok (st2, env2) => decoderStep deserRes st2 env2) := rfl
  rw [key]
  rcases hr : @responseStep Res ⟨lid, some (env.conns env.idx), none⟩
      { env with idx := env.idx + 1
               , reqs := env.reqs ++ [buildStreamRequest client u lid] }
    with out | ⟨st2, env2⟩
  · have := responseStep_error_env hr
    simp [this]
  · have h2 := responseStep_ok_env hr
    simp [decoderStep_env_eq, h2]

/-- Characterization of one loop iteration on a decoded message frame at the
head of the decoder: the cursor follows the frame id, the decoder is
retained, the environment is untouched, and an item is produced exactly when
the frame name is "message". -/
lemma pollStep_message_frame {Res : Type} (client : ClientCfg)
    (uriRes : Except Err String) (deserRes : String → Except Unit Res)
    (lid : Option String) (env : Env) (id : Option String) (name data : String)
    (rest : Decoder) :
    pollStep client uriRes deserRes
        ⟨lid, none, some (DecItem.frame (.ok (.message id name data)) :: rest)⟩ env =
      ((if name = "message" then
          match deserRes data with
          | .ok r => StepRes.item (.ok r)
          | .error _ => StepRes.item (.error .DeserializationError)
        else StepRes.cont),
       ⟨(match id with | some i => some i | none => lid), none, some rest⟩, env) := by
  by_cases h : name = "message"
  · subst h
    rcases hd : deserRes data with e | r <;>
      simp [pollStep, connectStep, responseStep, decoderStep, hd]
  · simp [pollStep, connectStep, responseStep, decoderStep, h]

/-- From a state holding a decoder (and no pending response), one loop
iteration goes straight to the decoder block. -/
lemma pollStep_with_decoder {Res : Type} (client : ClientCfg)
    (uriRes : Except Err String) (deserRes : String → Except Unit Res)
    (lid : Option String) (env : Env) (dec : Decoder) :
    pollStep client uriRes deserRes ⟨lid, none, some dec⟩ env =
      decoderStep deserRes ⟨lid, none, some dec⟩ env := rfl

/-- The connect block never changes the cursor. -/
lemma connectStep_last_id {Res : Type} (client : ClientCfg)
    (uriRes : Except Err String) (st : StreamState) (env : Env) :
    (match @connectStep Res client uriRes st env with
     | .error out => out.2.1.last_id
     | .ok p => p.1.last_id) = st.last_id := by
  rcases st with ⟨lid, resp, dec⟩
  rcases resp with _ | f <;> rcases dec with _ | d <;> rcases uriRes with e | u <;> rfl

/-- The response block never changes the cursor. -/
lemma responseStep_last_id {Res : Type} (st : StreamState) (env : Env) :
    (match @responseStep Res st env with
     | .error out => out.2.1.last_id
     | .ok p => p.1.last_id) = st.last_id := by
  rcases st with ⟨lid, resp, dec⟩
  rcases resp with _ | ⟨fuel, result⟩
  · rfl
  · rcases fuel with _ | n
    · rcases result with e | r
      · rfl
      · cases hS : isSuccess r.status <;> simp [responseStep, hS]
    · rfl

/-- The decoder block only ever replaces the cursor by another id: a set
cursor stays set. -/
lemma decoderStep_last_id_isSome {Res : Type} (d : String → Except Unit Res)
    (st : StreamState) (env : Env) (h : st.last_id.isSome = true) :
    ((decoderStep d st env).2.1).last_id.isSome = true := by
  rcases st with ⟨lid, resp, dec⟩
  rcases dec with _ | dec
  · exact h
  · rcases dec with _ | ⟨item, rest⟩
    · exact h
    · rcases item with _ | f
      · exact h
      · rcases f with e | ev
        · exact h
        · rcases ev with ⟨id, name, data⟩ | dur
          · rcases id with _ | i
            · by_cases hn : name = "message"
              · subst hn
                rcases hd : d data with e | r <;> simp_all [decoderStep, hd]
              · simp_all [decoderStep, hn]
            · by_cases hn : name = "message"
              · subst hn
                rcases hd : d data with e | r <;> simp [decoderStep, hd]
              · simp [decoderStep, hn]
          · exact h

/-- A set cursor stays set across one full loop iteration. -/
lemma pollStep_last_id_isSome {Res : Type} (client : ClientCfg)
    (uriRes : Except Err String) (deserRes : String → Except Unit Res)
    (st : StreamState) (env : Env) (h : st.last_id.isSome = true) :
    ((pollStep client uriRes deserRes st env).2.1).last_id.isSome = true := by
  have hp1 : pollStep client uriRes deserRes st env =
      (match @connectStep Res client uriRes st env with
       | .error out => out
       | .ok (st1, env1) =>
         match @responseStep Res st1 env1 with
         | .error out => out
         | .ok (st2, env2) => decoderStep deserRes st2 env2) := rfl
  rw [hp1]
  rcases hc : @connectStep Res client uriRes st env with out | ⟨st1, env1⟩
  · have key : out.2.1.last_id = st.last_id := by
      have k := @connectStep_last_id Res client uriRes st env
      rw [hc] at k
      exact k
    show out.2.1.last_id.isSome = true
    rw [key]
    exact h
  · have key1 : st1.last_id = st.last_id := by
      have k := @connectStep_last_id Res client uriRes st env
      rw [hc] at k
      exact k
    show (match @responseStep Res st1 env1 with
          | .error out => out
          | .ok (st2, env2) =>
              decoderStep deserRes st2 env2).2.1.last_id.isSome = true
    rcases hr : @responseStep Res st1 env1 with out | ⟨st2, env2⟩
    · have key2 : out.2.1.last_id = st1.last_id := by
        have k := @responseStep_last_id Res st1 env1
        rw [hr] at k
        exact k
      show out.2.1.last_id.isSome = true
      rw [key2, key1]
      exact h
    · have key2 : st2.last_id = st1.last_id := by
        have k := @responseStep_last_id Res st1 env1
        rw [hr] at k
        exact k
      show ((decoderStep deserRes st2 env2).2.1).last_id.isSome = true
      exact decoderStep_last_id_isSome deserRes st2 env2 (by rw [key2, key1]; exact h)

/-! Claim theorems. -/

/-- C2: the one-shot dispatcher outcome is determined by the response status:
a 2xx status whose body decodes as the declared success type yields Ok of the
value; a 4xx status whose body decodes as the shared error schema yields
HorizonRequestError carrying the payload; any other status yields
HorizonServerError regardless of the body and of both deserializers. -/
theorem execute_request_status_classification {Resp : Type} (u : String)
    (resp : OneShotResponse) (dR : String → Except Unit Resp)
    (dE : String → Except Unit String) :
    (∀ v, isSuccess resp.status = true → dR resp.body = .ok v →
      execute_request (.ok u) (.ok resp) dR dE = .ok v) ∧
    (∀ p, isClientError resp.status = true → dE resp.body = .ok p →
      execute_request (.ok u) (.ok resp) dR dE = .error (.HorizonRequestError p)) ∧
    (isSuccess resp.status = false → isClientError resp.status = false →
      execute_request (.ok u) (.ok resp) dR dE = .error .HorizonServerError) := by
  refine ⟨?_, ?_, ?_⟩
  · intro v hs hd
    simp [execute_request, hs, hd]
  · intro p hc hd
    have hs : isSuccess resp.status = false := by
      simp only [isSuccess, isClientError, decide_eq_true_eq, decide_eq_false_iff_not] at hc ⊢
      omega
    simp [execute_request, hs, hc, hd]
  · intro hs hc
    simp [execute_request, hs, hc]

/-- Witness for C2 at concrete inputs: status 200 with body "1", status 404
with body "p", status 500. -/
theorem execute_request_status_classification_witness :
    execute_request (.ok "u") (.ok ⟨200, "1"⟩) deserNat deserPayload = .ok 1 ∧
    execute_request (.ok "u") (.ok ⟨404, "p"⟩) deserNat deserPayload =
      .error (.HorizonRequestError "p") ∧
    execute_request (.ok "u") (.ok ⟨500, "x"⟩) deserNat deserPayload =
      .error .HorizonServerError :=
  ⟨(execute_request_status_classification "u" ⟨200, "1"⟩ deserNat deserPayload).1
      1 rfl rfl,
   (execute_request_status_classification "u" ⟨404, "p"⟩ deserNat deserPayload).2.1
      "p" rfl rfl,
   (execute_request_status_classification "u" ⟨500, "x"⟩ deserNat deserPayload).2.2
      rfl rfl⟩

/-- C10: the stream constructor always returns Ok, consulting neither the
transport environment nor the endpoint URL (it takes neither as input), and
the returned stream starts with no cursor, no pending response and no
decoder, so the first connection attempt can only happen on the first poll. -/
theorem streamNew_always_ok_initial :
    ∃ st, streamNew = Except.ok st ∧
      st.last_id = none ∧ st.response = none ∧ st.decoder = none :=
  ⟨⟨none, none, none⟩, rfl, rfl, rfl, rfl⟩

/-- C5: evaluating the code at the failing input — a fresh stream whose
initial SSE connection is answered with status 500 — shows the poll panicking
on the success assertion instead of surfacing HorizonServerError. -/
theorem nonsuccess_initial_connection_panics :
    (pollStep testClient (.ok "u") deserNat streamInit env500).1 =
      StepRes.panicked ∧
    isSuccess 500 = false :=
  ⟨rfl, rfl⟩

/-- C1: when the decoder is exhausted (connection closed cleanly), the step
drops it and loops back to the bare state; from the bare state the next
iteration issues exactly one fresh GET request for the same endpoint URL,
and whenever the cursor holds an id, the request built for that cursor
carries the header Last-Event-Id with that id. -/
theorem exhausted_decoder_reconnects {Res : Type} (client : ClientCfg)
    (u : String) (deserRes : String → Except Unit Res) (lid : Option String)
    (env : Env) :
    pollStep client (.ok u) deserRes ⟨lid, none, some []⟩ env =
      (.cont, ⟨lid, none, none⟩, env) ∧
    (pollStep client (.ok u) deserRes ⟨lid, none, none⟩ env).2.2.reqs =
      env.reqs ++ [buildStreamRequest client u lid] ∧
    (buildStreamRequest client u lid).method = "GET" ∧
    (buildStreamRequest client u lid).uri = u ∧
    ∀ c : String,
      ("Last-Event-Id", c) ∈ (buildStreamRequest client u (some c)).headers := by
  refine ⟨rfl, reconnect_issues_request client u deserRes lid env, rfl, rfl, ?_⟩
  intro c
  simp [buildStreamRequest, requestBuilderHeaders]

/-- C7: an SSE framing error at the head of the decoder makes the step yield
exactly one SSEDecoderError item with the decoder dropped in that same step;
the resulting bare state makes the next iteration issue a fresh GET request
(a reconnection attempt). -/
theorem framing_error_yields_once_and_reconnects {Res : Type}
    (client : ClientCfg) (u : String) (deserRes : String → Except Unit Res)
    (lid : Option String) (env : Env) (rest : Decoder) :
    pollStep client (.ok u) deserRes
        ⟨lid, none, some (DecItem.frame (.error ()) :: rest)⟩ env =
      (.item (.error .SSEDecoderError), ⟨lid, none, none⟩, env) ∧
    (pollStep client (.ok u) deserRes ⟨lid, none, none⟩ env).2.2.reqs =
      env.reqs ++ [buildStreamRequest client u lid] :=
  ⟨rfl, reconnect_issues_request client u deserRes lid env⟩

/-- C3: processing a decoded message frame sets the cursor to the frame id
when the frame carries one — whatever the frame name is — and leaves it
unchanged when the frame carries no id; moreover a set cursor is never
cleared by any poll step. -/
theorem cursor_follows_frame_id {Res : Type} (client : ClientCfg)
    (uriRes : Except Err String) (deserRes : String → Except Unit Res) :
    (∀ (lid : Option String) (env : Env) (id : Option String)
        (name data : String) (rest : Decoder),
      ((pollStep client uriRes deserRes
          ⟨lid, none, some (DecItem.frame (.ok (.message id name data)) :: rest)⟩
          env).2.1).last_id
        = match id with | some i => some i | none => lid) ∧
    (∀ (st : StreamState) (env : Env), st.last_id.isSome = true →
      ((pollStep client uriRes deserRes st env).2.1).last_id.isSome = true) := by
  constructor
  · intro lid env id name data rest
    rw [pollStep_message_frame]
  · intro st env h
    exact pollStep_last_id_isSome client uriRes deserRes st env h

/-- Witness for C3 at concrete inputs: a message frame carrying id "2"
replaces cursor "1", and a state whose cursor is set keeps a set cursor. -/
theorem cursor_follows_frame_id_witness :
    ((StreamState.mk (some "1") none
        (some [DecItem.frame (.ok (.message none "message" "x"))])).last_id).isSome
      = true ∧
    ((pollStep testClient (.ok "u") deserNat
        ⟨some "1", none, some [DecItem.frame (.ok (.message (some "2") "message" "1"))]⟩
        env0).2.1).last_id = some "2" ∧
    ((pollStep testClient (.ok "u") deserNat
        ⟨some "1", none, some [DecItem.frame (.ok (.message none "message" "x"))]⟩
        env0).2.1).last_id.isSome = true :=
  ⟨rfl,
   (cursor_follows_frame_id testClient (.ok "u") deserNat).1
      (some "1") env0 (some "2") "message" "1" [],
   (cursor_follows_frame_id testClient (.ok "u") deserNat).2
      ⟨some "1", none, some [DecItem.frame (.ok (.message none "message" "x"))]⟩
      env0 rfl⟩

/-- C4: a decoded frame produces an item for the consumer only when its event
name is exactly "message": frames with any other name, and retry-hint frames,
make the iteration continue without yielding. -/
theorem only_message_frames_yield {Res : Type} (client : ClientCfg)
    (uriRes : Except Err String) (deserRes : String → Except Unit Res) :
    (∀ (lid : Option String) (env : Env) (id : Option String)
        (name data : String) (rest : Decoder), name ≠ "message" →
      pollStep client uriRes deserRes
          ⟨lid, none, some (DecItem.frame (.ok (.message id name data)) :: rest)⟩
          env =
        (.cont, ⟨(match id with | some i => some i | none => lid), none,
                 some rest⟩, env)) ∧
    (∀ (lid : Option String) (env : Env) (d : Nat) (rest : Decoder),
      pollStep client uriRes deserRes
          ⟨lid, none, some (DecItem.frame (.ok (.retry d)) :: rest)⟩ env =
        (.cont, ⟨lid, none, some rest⟩, env)) := by
  constructor
  · intro lid env id name data rest hn
    rw [pollStep_message_frame]
    simp [hn]
  · intro lid env d rest
    rfl

/-- Witness for C4 at concrete inputs: a frame named "foo" and a retry frame
both continue without yielding. -/
theorem only_message_frames_yield_witness :
    ("foo" ≠ "message") ∧
    pollStep testClient (.ok "u") deserNat
        ⟨none, none, some [DecItem.frame (.ok (.message (some "7") "foo" "x"))]⟩
        env0 =
      (.cont, ⟨some "7", none, some []⟩, env0) ∧
    pollStep testClient (.ok "u") deserNat
        ⟨none, none, some [DecItem.frame (.ok (.retry 3))]⟩ env0 =
      (.cont, ⟨none, none, some []⟩, env0) :=
  ⟨by decide,
   (only_message_frames_yield testClient (.ok "u") deserNat).1
      none env0 (some "7") "foo" "x" [] (by decide),
   (only_message_frames_yield testClient (.ok "u") deserNat).2 none env0 3 []⟩

/-- A state about to decode a message frame named "foo" carrying id "7". -/
def stFoo : StreamState :=
  ⟨none, none,
   some [DecItem.frame (.ok (.message (some "7") "foo" "x")), DecItem.pending]⟩

/-- C6 counterexample: from `stFoo` a whole poll suspends — no item at all is
handed to the consumer — yet the cursor changed from none to some "7", so a
poll step may change the cursor without yielding a successfully decoded
item. -/
theorem cursor_changes_without_yield_cex :
    (poll_next 2 testClient (.ok "u") deserNat stFoo env0).1 =
      PollOutcome.pending ∧
    ((poll_next 2 testClient (.ok "u") deserNat stFoo env0).2.1).last_id =
      some "7" ∧
    stFoo.last_id = none :=
  ⟨rfl, rfl, rfl⟩

/-- C6 amended: the cursor is set to the frame id whenever a decoded message
frame carries one — independently of the frame name, hence of whether the
step yields anything — and is left unchanged by a message frame carrying no
id. -/
theorem cursor_update_independent_of_yield {Res : Type} (client : ClientCfg)
    (uriRes : Except Err String) (deserRes : String → Except Unit Res)
    (lid : Option String) (env : Env) (i name data : String) (rest : Decoder) :
    ((pollStep client uriRes deserRes
        ⟨lid, none, some (DecItem.frame (.ok (.message (some i) name data)) :: rest)⟩
        env).2.1).last_id = some i ∧
    ((pollStep client uriRes deserRes
        ⟨lid, none, some (DecItem.frame (.ok (.message none name data)) :: rest)⟩
        env).2.1).last_id = lid := by
  constructor <;> rw [pollStep_message_frame]

/-- C9: a frame named exactly "message" whose payload fails to deserialize
yields a deserialization-error item while the decoder is retained, so the
following iteration reads from the same connection and issues no new
request. -/
theorem deser_failure_keeps_decoder {Res : Type} (client : ClientCfg)
    (uriRes : Except Err String) (deserRes : String → Except Unit Res)
    (lid : Option String) (env : Env) (id : Option String) (data : String)
    (rest : Decoder) (hd : deserRes data = .error ()) :
    pollStep client uriRes deserRes
        ⟨lid, none, some (DecItem.frame (.ok (.message id "message" data)) :: rest)⟩
        env =
      (.item (.error .DeserializationError),
       ⟨(match id with | some i => some i | none => lid), none, some rest⟩,
       env) ∧
    ∀ env2 : Env,
      (pollStep client uriRes deserRes
          ⟨(match id with | some i => some i | none => lid), none, some rest⟩
          env2).2.2.reqs = env2.reqs := by
  constructor
  · rw [pollStep_message_frame]
    simp [hd]
  · intro env2
    rw [pollStep_with_decoder, decoderStep_env_eq]

/-- Witness for C9 at concrete inputs: payload "x" is rejected by the
deserializer; the step yields the deserialization error with the decoder
kept. -/
theorem deser_failure_keeps_decoder_witness :
    deserNat "x" = .error () ∧
    pollStep testClient (.ok "u") deserNat
        ⟨none, none, some [DecItem.frame (.ok (.message (some "1") "message" "x")),
                           DecItem.pending]⟩ env0 =
      (.item (.error .DeserializationError),
       ⟨some "1", none, some [DecItem.pending]⟩, env0) :=
  ⟨rfl,
   (deser_failure_keeps_decoder testClient (.ok "u") deserNat none env0
      (some "1") "x" [DecItem.pending] rfl).1⟩

/-- The connection-state invariant of the stream: a pending response future
and an active decoder are never held simultaneously. -/
def connInv (st : StreamState) : Bool :=
  !(st.response.isSome && st.decoder.isSome)

/-- The connect block establishes the invariant (early-return case keeps the
state unchanged). -/
lemma connectStep_connInv {Res : Type} (client : ClientCfg)
    (uriRes : Except Err String) (st : StreamState) (env : Env)
    (h : connInv st = true) :
    (match @connectStep Res client uriRes st env with
     | .error out => connInv out.2.1
     | .ok p => connInv p.1) = true := by
  rcases st with ⟨lid, resp, dec⟩
  rcases resp with _ | f <;> rcases dec with _ | d <;>
    rcases uriRes with e | u <;> simp_all [connectStep, connInv]

/-- The response block preserves the invariant; moreover its fall-through
state never holds a pending response. -/
lemma responseStep_connInv {Res : Type} (st : StreamState) (env : Env)
    (h : connInv st = true) :
    (match @responseStep Res st env with
     | .error out => connInv out.2.1
     | .ok p => connInv p.1 && p.1.response.isNone) = true := by
  rcases st with ⟨lid, resp, dec⟩
  rcases resp with _ | ⟨fuel, result⟩
  · simp [responseStep, connInv]
  · rcases fuel with _ | n
    · rcases result with e | r
      · simp_all [responseStep, connInv]
      · cases hS : isSuccess r.status <;> simp_all [responseStep, connInv]
    · simp_all [responseStep, connInv]

/-- The decoder block preserves the invariant whenever no response future is
held — which is the case at every entry to it. -/
lemma decoderStep_connInv {Res : Type} (d : String → Except Unit Res)
    (st : StreamState) (env : Env) (h : st.response.isNone = true) :
    connInv (decoderStep d st env).2.1 = true := by
  rcases st with ⟨lid, resp, dec⟩
  rcases resp with _ | f
  · rcases dec with _ | dec
    · rfl
    · rcases dec with _ | ⟨item, rest⟩
      · rfl
      · rcases item with _ | f
        · rfl
        · rcases f with e | ev
          · rfl
          · rcases ev with ⟨id, name, data⟩ | dur
            · by_cases hn : name = "message"
              · subst hn
                rcases hd : d data with e | r <;> simp [decoderStep, hd, connInv]
              · simp [decoderStep, hn, connInv]
            · rfl
  · simp at h

/-- C8: a fresh stream satisfies the connection-state invariant — at most one
of a pending response future and an active decoder — and every poll step
preserves it. -/
theorem at_most_one_connection_handle {Res : Type} (client : ClientCfg)
    (uriRes : Except Err String) (deserRes : String → Except Unit Res) :
    (∀ st, streamNew = Except.ok st → connInv st = true) ∧
    (∀ (st : StreamState) (env : Env), connInv st = true →
      connInv (pollStep client uriRes deserRes st env).2.1 = true) := by
  constructor
  · intro st h
    simp only [streamNew, Except.ok.injEq] at h
    rw [← h]
    rfl
  · intro st env h
    have hp1 : pollStep client uriRes deserRes st env =
        (match @connectStep Res client uriRes st env with
         | .error out => out
         | .ok (st1, env1) =>
           match @responseStep Res st1 env1 with
           | .error out => out
           | .ok (st2, env2) => decoderStep deserRes st2 env2) := rfl
    rw [hp1]
    rcases hc : @connectStep Res client uriRes st env with out | ⟨st1, env1⟩
    · have key : connInv out.2.1 = true := by
        have k := @connectStep_connInv Res client uriRes st env h
        rw [hc] at k
        exact k
      exact key
    · have key1 : connInv st1 = true := by
        have k := @connectStep_connInv Res client uriRes st env h
        rw [hc] at k
        exact k
      show connInv (match @responseStep Res st1 env1 with
            | .error out => out
            | .ok (st2, env2) => decoderStep deserRes st2 env2).2.1 = true
      rcases hr : @responseStep Res st1 env1 with out | ⟨st2, env2⟩
      · have k := @responseStep_connInv Res st1 env1 key1
        rw [hr] at k
        exact k
      · have k := @responseStep_connInv Res st1 env1 key1
        rw [hr] at k
        simp only [Bool.and_eq_true] at k
        exact decoderStep_connInv deserRes st2 env2 (by
          rw [Option.isNone_iff_eq_none]
          exact Option.not_isSome_iff_eq_none.mp (by simp [k.2]) )

/-- Witness for C8 at concrete inputs: the fresh state satisfies the
invariant, and a step from a state holding only a decoder keeps it. -/
theorem at_most_one_connection_handle_witness :
    connInv ⟨none, none, none⟩ = true ∧
    connInv stFoo = true ∧
    connInv (pollStep testClient (.ok "u") deserNat stFoo env0).2.1 = true :=
  ⟨(at_most_one_connection_handle testClient (.ok "u") deserNat).1
      ⟨none, none, none⟩ rfl,
   rfl,
   (at_most_one_connection_handle testClient (.ok "u") deserNat).2
      stFoo env0 rfl⟩

end StellarHorizon
